import Mathlib

/-!
Verification development for the poultry-env monitoring repository.

Shallow embedding conventions:
* Wall-clock time (Python `time()`) is modelled as a rational number passed
  explicitly to each call.
* A sensor reading is an `Option Bool`: `none` models a sensor whose driver
  failed to initialize (the module-level handle is Python `None`), and
  `some b` models a successful poll of the digital signal `is_active = b`.
* Python `int(x)` truncation toward zero is `pyInt`.
-/

/-- Python `int()` applied to a float/rational: truncation toward zero. -/
def pyInt (q : ℚ) : ℤ :=
  if q < 0 then -⌊-q⌋ else ⌊q⌋

/-- Outcome of one raw DHT22 read attempt (the pair of driver property
accesses `dht_sensor.temperature` / `dht_sensor.humidity`): the reads
return values (each possibly `None`), or they raise a `RuntimeError`, or
they raise some other exception (identified by its type name). -/
inductive DhtRead where
  | value (temperature humidity : Option ℚ)
  | runtimeErr (msg : String)
  | unexpectedErr (name : String)
  deriving Repr, DecidableEq

/-- The dictionary returned by the environmental adapters, holding the
temperature and humidity keys, with Python `None` modelled as `none`. -/
structure EnvData where
  temperature : Option ℚ
  humidity : Option ℚ
  deriving Repr, DecidableEq

namespace hardware_manager

/-- Embedding of `get_environmental_data` (src/hardware_manager.py, lines 37-58).
`dht_sensor_present = false` models the module-level handle being `None`
after a failed driver initialization.  The result is in `Except` so that a
re-raised exception would be observable; this adapter catches
`RuntimeError` and every other exception and falls back to the absent
sentinel. -/
def get_environmental_data (dht_sensor_present : Bool) (attempt : DhtRead) :
    Except String EnvData :=
  if dht_sensor_present = false then Except.ok ⟨none, none⟩
  else
    match attempt with
    | .value t h =>
      if t.isSome && h.isSome then Except.ok ⟨t, h⟩
      else Except.ok ⟨none, none⟩
    | .runtimeErr _ => Except.ok ⟨none, none⟩
    | .unexpectedErr _ => Except.ok ⟨none, none⟩

/-- State of `MotionTracker` (src/hardware_manager.py, lines 78-118). -/
structure MotionTracker where
  inactivity_threshold : ℚ
  last_motion_time : ℚ
  motion_now : Bool
  deriving Repr, DecidableEq

/-- Embedding of `MotionTracker.__init__`: `last_motion_time` is stamped with the
construction time and `motion_now` starts false. -/
def MotionTracker.init (inactivity_threshold_sec : ℚ) (now : ℚ) : MotionTracker :=
  { inactivity_threshold := inactivity_threshold_sec
    last_motion_time := now
    motion_now := false }

/-- Embedding of `MotionTracker.update`: reads the PIR signal.  `none` models
`pir_sensor is None` (early return after clearing `motion_now`). -/
def MotionTracker.update (t : MotionTracker) (reading : Option Bool) (now : ℚ) :
    MotionTracker :=
  match reading with
  | none => { t with motion_now := false }
  | some true => { t with motion_now := true, last_motion_time := now }
  | some false => { t with motion_now := false }

/-- The dictionary returned by `MotionTracker.get_status`. -/
structure MotionStatus where
  motion_now : Bool
  last_seen_str : String
  inactivity_alert : Bool
  hyperactivity_alert : Bool
  deriving Repr, DecidableEq

/-- Embedding of `MotionTracker.get_status` (lines 100-118): recency label bands and the
strict inactivity comparison `time_since_last_motion > inactivity_threshold`. -/
def MotionTracker.get_status (t : MotionTracker) (now : ℚ) : MotionStatus :=
  let time_since_last_motion : ℚ := now - t.last_motion_time
  { motion_now := t.motion_now
    last_seen_str :=
      if time_since_last_motion < 60 then "Just now"
      else if time_since_last_motion < 3600 then
        toString (pyInt (time_since_last_motion / 60)) ++ " mins ago"
      else
        toString (pyInt (time_since_last_motion / 3600)) ++ " hours ago"
    inactivity_alert := decide (t.inactivity_threshold < time_since_last_motion)
    hyperactivity_alert := false }

/-- State of `SoundDisturbanceDetector` (src/hardware_manager.py, lines
120-173). -/
structure SoundDisturbanceDetector where
  sustained_noise_duration : ℚ
  quiet_reset_duration : ℚ
  noise_start_time : Option ℚ
  quiet_start_time : Option ℚ
  alert_triggered_for_event : Bool
  sound_is_active : Bool
  deriving Repr, DecidableEq

/-- Embedding of `SoundDisturbanceDetector.__init__`: the detector starts in a quiet
phase stamped with the construction time, with no latched alert. -/
def SoundDisturbanceDetector.init (sustained_noise_sec quiet_reset_sec now : ℚ) :
    SoundDisturbanceDetector :=
  { sustained_noise_duration := sustained_noise_sec
    quiet_reset_duration := quiet_reset_sec
    noise_start_time := none
    quiet_start_time := some now
    alert_triggered_for_event := false
    sound_is_active := false }

/-- Embedding of `SoundDisturbanceDetector.update` (lines 134-157).  `none` models
`sound_sensor is None` (early return after clearing `sound_is_active`).
On a true signal the quiet timer is cleared and the noise timer started if
new; on a false signal the noise timer is cleared, the quiet timer started
if new, and the latch reset once the quiet phase strictly exceeds
`quiet_reset_duration`. -/
def SoundDisturbanceDetector.update (d : SoundDisturbanceDetector)
    (reading : Option Bool) (now : ℚ) : SoundDisturbanceDetector :=
  match reading with
  | none => { d with sound_is_active := false }
  | some sig =>
    if sig then
      match d.noise_start_time with
      | none =>
        { d with sound_is_active := true, quiet_start_time := none,
                 noise_start_time := some now }
      | some t0 =>
        { d with sound_is_active := true, quiet_start_time := none,
                 noise_start_time := some t0 }
    else
      let q0 : ℚ :=
        match d.quiet_start_time with
        | none => now
        | some q => q
      if d.quiet_reset_duration < now - q0 then
        { d with sound_is_active := false, noise_start_time := none,
                 quiet_start_time := some q0, alert_triggered_for_event := false }
      else
        { d with sound_is_active := false, noise_start_time := none,
                 quiet_start_time := some q0 }

/-- The dictionary returned by `SoundDisturbanceDetector.get_status`. -/
structure SoundStatus where
  sound_now : Bool
  acoustic_alert : Bool
  deriving Repr, DecidableEq

/-- Embedding of `SoundDisturbanceDetector.get_status` (lines 159-173): fires the alert
once per sustained noise episode and latches it.  Returns the status
together with the (possibly latched) successor state. -/
def SoundDisturbanceDetector.get_status (d : SoundDisturbanceDetector)
    (now : ℚ) : SoundStatus × SoundDisturbanceDetector :=
  match d.noise_start_time with
  | some t0 =>
    if d.sustained_noise_duration < now - t0 ∧ d.alert_triggered_for_event = false then
      (⟨d.sound_is_active, true⟩, { d with alert_triggered_for_event := true })
    else
      (⟨d.sound_is_active, false⟩, d)
  | none => (⟨d.sound_is_active, false⟩, d)

/-- One externally visible call on the detector: an `update` with a sensor
reading at a given time, or a `get_status` at a given time. -/
inductive SoundEv where
  | upd (reading : Option Bool) (now : ℚ)
  | stat (now : ℚ)
  deriving Repr, DecidableEq

/-- Effect of a single call on the detector state; `get_status` also
produces an output dictionary. -/
def soundStep (d : SoundDisturbanceDetector) :
    SoundEv → SoundDisturbanceDetector × Option SoundStatus
  | .upd r now => (d.update r now, none)
  | .stat now => ((d.get_status now).2, some (d.get_status now).1)

/-- Run a sequence of calls, collecting the `get_status` outputs. -/
def soundRun (d : SoundDisturbanceDetector) :
    List SoundEv → SoundDisturbanceDetector × List SoundStatus
  | [] => (d, [])
  | ev :: evs =>
    let s := soundStep d ev
    let r := soundRun s.1 evs
    (r.1, match s.2 with | none => r.2 | some st => st :: r.2)

/-- One dashboard tick per listed time: `update` with a fixed reading, then
`get_status`, collecting the `acoustic_alert` outputs (this is the polling
discipline of the main loop and of the standalone test block). -/
def ticksRun (d : SoundDisturbanceDetector) (reading : Option Bool) :
    List ℚ → SoundDisturbanceDetector × List Bool
  | [] => (d, [])
  | t :: ts =>
    let d1 := d.update reading t
    let s := d1.get_status t
    let r := ticksRun s.2 reading ts
    (r.1, s.1.acoustic_alert :: r.2)

end hardware_manager

open hardware_manager

/-- Expected one-shot alert pattern for a run of noisy ticks at the listed
times, for a noise episode that began at `n0`: each tick fires exactly when
the elapsed noise time strictly exceeds `sus` and the latch is still clear,
and firing sets the latch. -/
def oneShotOuts (sus n0 : ℚ) (latched : Bool) : List ℚ → List Bool
  | [] => []
  | t :: ts =>
    let fire := !latched && decide (sus < t - n0)
    fire :: oneShotOuts sus n0 (latched || fire) ts

/-- Build a call sequence of a given shape (`true` entries are `update`
calls, `false` entries are `get_status` calls), with every `update` fed the
fixed reading `r`. -/
def evsWith (r : Option Bool) : List (Bool × ℚ) → List SoundEv
  | [] => []
  | (isUpd, t) :: rest =>
    (if isUpd then SoundEv.upd r t else SoundEv.stat t) :: evsWith r rest

/-- Phase invariant of the sound detector: the noise timer and the quiet
timer are never both set. -/
def phaseOk (d : SoundDisturbanceDetector) : Bool :=
  !(d.noise_start_time.isSome && d.quiet_start_time.isSome)

namespace tests_dht

/-- One row appended to the CSV log by the logging adapter: the two
optional readings (empty cells when absent) and the status tag; the
timestamp column is wall-clock glue and is not modelled. -/
structure CsvRow where
  temperature : Option ℚ
  humidity : Option ℚ
  status : String
  deriving Repr, DecidableEq

/-- Observable effects of one call of the logging adapter: its result (an
`Except.error` models a re-raised exception), the CSV rows appended, and
whether `dht_sensor.exit()` was called to release the handle. -/
structure LogRun where
  result : Except String EnvData
  rows : List CsvRow
  exited : Bool
  deriving Repr

/-- Embedding of `get_environmental_data` of src/tests/dht.py (lines 14-59): logs one
row per attempt; swallows `None` readings and `RuntimeError` into the
absent sentinel, but on any other exception logs the row, releases the
sensor handle, and re-raises. -/
def get_environmental_data (attempt : DhtRead) : LogRun :=
  match attempt with
  | .value t h =>
    if t.isNone || h.isNone then
      ⟨Except.ok ⟨none, none⟩, [⟨none, none, "error"⟩], false⟩
    else
      ⟨Except.ok ⟨t, h⟩, [⟨t, h, "ok"⟩], false⟩
  | .runtimeErr _ =>
    ⟨Except.ok ⟨none, none⟩, [⟨none, none, "runtime_error"⟩], false⟩
  | .unexpectedErr n =>
    ⟨Except.error n, [⟨none, none, "exception:" ++ n⟩], true⟩

end tests_dht

namespace main

/-- Aggregate status rule of `PoultryApp.update_data` (src/main.py, lines
92-100): start from NORMAL, escalate to CRITICAL on a present temperature
above 35.0, else on the inactivity alert, else to WARNING on a present CO2
reading above 2000 ppm. -/
def systemStatus (current_temp : Option ℚ) (co2_data : Option ℤ)
    (inactivity_alert : Bool) : String :=
  if (match current_temp with
      | some t => decide ((35 : ℚ) < t)
      | none => false) then "CRITICAL"
  else if inactivity_alert then "CRITICAL"
  else if (match co2_data with
      | some c => decide ((2000 : ℤ) < c)
      | none => false) then "WARNING"
  else "NORMAL"

/-- The texts `PoultryApp.update_data` writes into the dashboard panels on
one tick.  -/
structure TickView where
  temperature_display : String
  humidity_display : String
  co2_display : String
  motion_status_display : String
  last_motion_display : String
  system_status : String
  deriving Repr, DecidableEq

/-- The per-tick view computation of `PoultryApp.update_data` (src/main.py,
lines 45-104), as a function of the readings gathered on that tick.  The
Python float formatter `"{:.1f}"` is abstracted as the parameter `fmt1`;
every other string is built as in the source. -/
def update_data_view (fmt1 : ℚ → String) (env : EnvData) (co2_data : Option ℤ)
    (motion_data : MotionStatus) : TickView :=
  { temperature_display :=
      match env.temperature with
      | some t => "Temperature: " ++ fmt1 t ++ " °C"
      | none => "Temperature: [bold red]ERROR[bold red]"
    humidity_display :=
      match env.humidity with
      | some h => "Humidity:    " ++ fmt1 h ++ " %"
      | none => "Humidity:    [bold red]ERROR[bold red]"
    co2_display :=
      match co2_data with
      | some c => "CO2 Level:   " ++ toString c ++ " PPM"
      | none => "CO2 Level:   [bold red]ERROR[bold red]"
    motion_status_display := "Motion Status: " ++
      (if motion_data.motion_now then "[bold green]ACTIVE[bold green]"
       else "[bold red]INACTIVE[red]")
    last_motion_display := "Last Motion:   " ++ motion_data.last_seen_str
    system_status :=
      systemStatus env.temperature co2_data motion_data.inactivity_alert }

end main

lemma pyInt_of_nonneg {q : ℚ} (h : 0 ≤ q) : pyInt q = ⌊q⌋ := by
  simp [pyInt, not_lt.mpr h]

/-- C4: a single `MotionTracker.update` call: with the sensor absent it only
clears `motion_now`; on a true reading it sets `motion_now` and stamps
`last_motion_time = now`; on a false reading it only clears `motion_now`.
In every case `inactivity_threshold` is untouched, and `last_motion_time`
is untouched except on a true reading. -/
theorem C4_motion_update_contract (t : MotionTracker) (now : ℚ) :
    ((t.update none now).motion_now = false ∧
      (t.update none now).last_motion_time = t.last_motion_time ∧
      (t.update none now).inactivity_threshold = t.inactivity_threshold) ∧
    ((t.update (some true) now).motion_now = true ∧
      (t.update (some true) now).last_motion_time = now ∧
      (t.update (some true) now).inactivity_threshold = t.inactivity_threshold) ∧
    ((t.update (some false) now).motion_now = false ∧
      (t.update (some false) now).last_motion_time = t.last_motion_time ∧
      (t.update (some false) now).inactivity_threshold = t.inactivity_threshold) := by
  cases t
  simp [MotionTracker.update]

/-- C5: `get_status` raises `inactivity_alert` exactly when the elapsed time
strictly exceeds the threshold; at exact equality the alert is false. -/
theorem C5_inactivity_strict (t : MotionTracker) (now : ℚ) :
    ((t.get_status now).inactivity_alert = true ↔
      t.inactivity_threshold < now - t.last_motion_time) ∧
    (now - t.last_motion_time = t.inactivity_threshold →
      (t.get_status now).inactivity_alert = false) := by
  constructor
  · simp [MotionTracker.get_status]
  · intro h
    simp [MotionTracker.get_status, h]

/-- C5 witness: at the default threshold 7200, elapsed exactly 7200 gives no
alert while elapsed 7201 does. -/
theorem C5_inactivity_strict_witness :
    ((MotionTracker.mk 7200 0 false).get_status 7200).inactivity_alert = false ∧
    ((MotionTracker.mk 7200 0 false).get_status 7201).inactivity_alert = true :=
  ⟨(C5_inactivity_strict ⟨7200, 0, false⟩ 7200).2 (by norm_num),
    (C5_inactivity_strict ⟨7200, 0, false⟩ 7201).1.mpr (by norm_num)⟩

/-- C6: for nonnegative elapsed time, the recency label is "Just now" below
60 s, floor-minutes between 60 s and 3600 s, and floor-hours at or above
3600 s. -/
theorem C6_recency_bands (t : MotionTracker) (now : ℚ)
    (h0 : 0 ≤ now - t.last_motion_time) :
    (now - t.last_motion_time < 60 →
      (t.get_status now).last_seen_str = "Just now") ∧
    (60 ≤ now - t.last_motion_time → now - t.last_motion_time < 3600 →
      (t.get_status now).last_seen_str =
        toString ⌊(now - t.last_motion_time) / 60⌋ ++ " mins ago") ∧
    (3600 ≤ now - t.last_motion_time →
      (t.get_status now).last_seen_str =
        toString ⌊(now - t.last_motion_time) / 3600⌋ ++ " hours ago") := by
  refine ⟨fun h1 => ?_, fun h1 h2 => ?_, fun h1 => ?_⟩
  · simp [MotionTracker.get_status, h1]
  · have hd : 0 ≤ (now - t.last_motion_time) / 60 := by positivity
    simp [MotionTracker.get_status, not_lt.mpr h1, h2, pyInt_of_nonneg hd]
  · have h2 : ¬ now - t.last_motion_time < 3600 := not_lt.mpr h1
    have h3 : ¬ now - t.last_motion_time < 60 := by
      intro hc; exact absurd (lt_of_le_of_lt h1 hc) (by norm_num)
    have hd : 0 ≤ (now - t.last_motion_time) / 3600 := by positivity
    simp [MotionTracker.get_status, h2, h3, pyInt_of_nonneg hd]

/-- C6 witness: with the last motion at time 0, elapsed 30 s reports
"Just now", 90 s reports "1 mins ago", 4000 s reports "1 hours ago". -/
theorem C6_recency_bands_witness :
    ((MotionTracker.mk 7200 0 false).get_status 30).last_seen_str = "Just now" ∧
    ((MotionTracker.mk 7200 0 false).get_status 90).last_seen_str = "1 mins ago" ∧
    ((MotionTracker.mk 7200 0 false).get_status 4000).last_seen_str = "1 hours ago" := by
  refine ⟨(C6_recency_bands ⟨7200, 0, false⟩ 30 (by norm_num)).1 (by norm_num), ?_, ?_⟩
  · have h := (C6_recency_bands ⟨7200, 0, false⟩ 90 (by norm_num)).2.1
      (by norm_num) (by norm_num)
    rw [h]
    norm_num
    rfl
  · have h := (C6_recency_bands ⟨7200, 0, false⟩ 4000 (by norm_num)).2.2
      (by norm_num)
    rw [h]
    norm_num
    rfl

lemma oneShotOuts_latched (sus n0 : ℚ) :
    ∀ ts : List ℚ, oneShotOuts sus n0 true ts = ts.map (fun _ => false) := by
  intro ts
  induction ts with
  | nil => rfl
  | cons t ts ih => simp [oneShotOuts, ih]

lemma oneShotOuts_count_latched (sus n0 : ℚ) (ts : List ℚ) :
    (oneShotOuts sus n0 true ts).count true = 0 := by
  rw [oneShotOuts_latched]
  simp [List.count_eq_zero, List.mem_map]

lemma oneShotOuts_count_one (sus n0 : ℚ) :
    ∀ ts : List ℚ, (∃ t ∈ ts, sus < t - n0) →
      (oneShotOuts sus n0 false ts).count true = 1 := by
  intro ts
  induction ts with
  | nil => rintro ⟨t, ht, _⟩; simp at ht
  | cons t ts ih =>
    rintro ⟨u, hu, hlt⟩
    by_cases h : sus < t - n0
    · simp [oneShotOuts, h, List.count_cons, oneShotOuts_count_latched]
    · have hu' : u ∈ ts := by
        rcases List.mem_cons.mp hu with h1 | h1
        · exact absurd (h1 ▸ hlt) h
        · exact h1
      simpa [oneShotOuts, h, List.count_cons] using ih ⟨u, hu', hlt⟩

lemma oneShotOuts_after_fire (sus n0 : ℚ) :
    ∀ (ts : List ℚ) (latched : Bool) (i : ℕ),
      (oneShotOuts sus n0 latched ts).getD i false = true →
      ∀ b ∈ (oneShotOuts sus n0 latched ts).drop (i + 1), b = false := by
  intro ts
  induction ts with
  | nil => intro latched i h; simp [oneShotOuts] at h
  | cons t ts ih =>
    intro latched i h b hb
    cases i with
    | zero =>
      have hfire : (!latched && decide (sus < t - n0)) = true := by
        simpa [oneShotOuts] using h
      rw [show (1 : ℕ) = 0 + 1 from rfl] at hb
      simp only [oneShotOuts, List.drop_succ_cons, List.drop_zero] at hb
      rw [hfire, Bool.or_true, oneShotOuts_latched] at hb
      obtain ⟨a, -, ha⟩ := List.mem_map.mp hb
      exact ha.symm
    | succ j =>
      simp only [oneShotOuts, List.getD_cons_succ] at h
      simp only [oneShotOuts, List.drop_succ_cons] at hb
      exact ih (latched || (!latched && decide (sus < t - n0))) j h b hb

lemma ticksRun_noisy (n0 : ℚ) :
    ∀ (ts : List ℚ) (d : SoundDisturbanceDetector),
      d.noise_start_time = some n0 →
      (ticksRun d (some true) ts).2 =
        oneShotOuts d.sustained_noise_duration n0 d.alert_triggered_for_event ts := by
  intro ts
  induction ts with
  | nil => intro d _; rfl
  | cons t ts ih =>
    intro d hd
    have h1 : d.update (some true) t =
        { d with sound_is_active := true, quiet_start_time := none,
                 noise_start_time := some n0 } := by
      simp [SoundDisturbanceDetector.update, hd]
    by_cases hf : d.sustained_noise_duration < t - n0 ∧
        d.alert_triggered_for_event = false
    · have ihs := ih
        { d with sound_is_active := true, quiet_start_time := none,
                 noise_start_time := some n0, alert_triggered_for_event := true }
        (by simp)
      simp [ticksRun, h1, SoundDisturbanceDetector.get_status, hf.1, hf.2,
            oneShotOuts, ihs]
    · have hfire : (!d.alert_triggered_for_event &&
          decide (d.sustained_noise_duration < t - n0)) = false := by
        cases hal : d.alert_triggered_for_event <;> simp_all
      have hn' : (d.update (some true) t).noise_start_time = some n0 := by
        rw [h1]
      have ihs := ih (d.update (some true) t) hn'
      have hst : (d.update (some true) t).get_status t =
          (⟨true, false⟩, d.update (some true) t) := by
        rw [h1]
        simp only [SoundDisturbanceDetector.get_status]
        simp [hf]
      rw [h1] at ihs
      simp only [ticksRun]
      rw [hst, h1]
      simp [oneShotOuts, hfire, ihs]

lemma ticksRun_fresh (d : SoundDisturbanceDetector) (t0 : ℚ) (rest : List ℚ)
    (hn : d.noise_start_time = none) (ha : d.alert_triggered_for_event = false) :
    (ticksRun d (some true) (t0 :: rest)).2 =
      oneShotOuts d.sustained_noise_duration t0 false (t0 :: rest) := by
  have h1 : d.update (some true) t0 =
      ({ d with noise_start_time := some t0 } :
        SoundDisturbanceDetector).update (some true) t0 := by
    simp [SoundDisturbanceDetector.update, hn]
  have h2 := ticksRun_noisy t0 (t0 :: rest)
    { d with noise_start_time := some t0 } (by simp)
  calc (ticksRun d (some true) (t0 :: rest)).2
      = (ticksRun { d with noise_start_time := some t0 }
          (some true) (t0 :: rest)).2 := by
        simp only [ticksRun, h1]
    _ = oneShotOuts d.sustained_noise_duration t0 false (t0 :: rest) := by
        rw [h2]; simp [ha]

lemma ticksRun_count_one (d : SoundDisturbanceDetector) (t0 : ℚ) (rest : List ℚ)
    (hn : d.noise_start_time = none) (ha : d.alert_triggered_for_event = false)
    (hfire : ∃ t ∈ t0 :: rest, d.sustained_noise_duration < t - t0) :
    ((ticksRun d (some true) (t0 :: rest)).2).count true = 1 := by
  rw [ticksRun_fresh d t0 rest hn ha]
  exact oneShotOuts_count_one _ _ _ hfire

/-- C1: starting from the initial detector state, a run of noisy ticks
(update with a true signal, then get_status, at each listed time) in which
some tick observes a noise duration strictly exceeding
`sustained_noise_duration` produces exactly one tick with
`acoustic_alert = true`, and every tick after that one (while the signal
remains true) produces `acoustic_alert = false`. -/
theorem C1_sound_one_shot (sus qr tinit t0 : ℚ) (rest : List ℚ)
    (hfire : ∃ t ∈ t0 :: rest, sus < t - t0) :
    ((ticksRun (SoundDisturbanceDetector.init sus qr tinit)
        (some true) (t0 :: rest)).2).count true = 1 ∧
    ∀ i : ℕ,
      ((ticksRun (SoundDisturbanceDetector.init sus qr tinit)
          (some true) (t0 :: rest)).2).getD i false = true →
      ∀ b ∈ ((ticksRun (SoundDisturbanceDetector.init sus qr tinit)
          (some true) (t0 :: rest)).2).drop (i + 1), b = false := by
  have heq := ticksRun_fresh (SoundDisturbanceDetector.init sus qr tinit)
    t0 rest rfl rfl
  rw [heq]
  constructor
  · exact oneShotOuts_count_one _ _ _ hfire
  · intro i h b hb
    exact oneShotOuts_after_fire _ _ _ _ i h b hb

/-- C1 witness: thresholds 8 s noise / 3 s quiet, detector built at time 0,
noisy ticks at times 10 and 19: the noise duration first exceeds 8 s at the
second tick, which is the one alert of the run. -/
theorem C1_sound_one_shot_witness :
    ((ticksRun (SoundDisturbanceDetector.init 8 3 0)
        (some true) [10, 19]).2).count true = 1 ∧
    ∀ i : ℕ,
      ((ticksRun (SoundDisturbanceDetector.init 8 3 0)
          (some true) [10, 19]).2).getD i false = true →
      ∀ b ∈ ((ticksRun (SoundDisturbanceDetector.init 8 3 0)
          (some true) [10, 19]).2).drop (i + 1), b = false :=
  C1_sound_one_shot 8 3 0 10 [19] ⟨19, by simp, by norm_num⟩

/-- C2: with the alert latched and a quiet episode that began at `q0`, an
`update` on a false signal at time `now` clears the latch exactly when
`now - q0` strictly exceeds `quiet_reset_duration` (a quiet episode of
exactly the threshold leaves the latch set); and once cleared, a
subsequent run of noisy ticks whose duration exceeds
`sustained_noise_duration` fires a second alert. -/
theorem C2_quiet_reset (d : SoundDisturbanceDetector) (q0 now : ℚ)
    (hq : d.quiet_start_time = some q0)
    (ha : d.alert_triggered_for_event = true) :
    (((d.update (some false) now).alert_triggered_for_event = false) ↔
      d.quiet_reset_duration < now - q0) ∧
    ∀ t0 : ℚ, ∀ rest : List ℚ, d.quiet_reset_duration < now - q0 →
      (∃ t ∈ t0 :: rest, d.sustained_noise_duration < t - t0) →
      ((ticksRun (d.update (some false) now)
          (some true) (t0 :: rest)).2).count true = 1 := by
  constructor
  · by_cases h : d.quiet_reset_duration < now - q0
    · simp [SoundDisturbanceDetector.update, hq, h]
    · simp [SoundDisturbanceDetector.update, hq, h, ha]
  · intro t0 rest hnow hfire
    have hupd : d.update (some false) now =
        { d with sound_is_active := false, noise_start_time := none,
                 quiet_start_time := some q0,
                 alert_triggered_for_event := false } := by
      simp [SoundDisturbanceDetector.update, hq, hnow]
    refine ticksRun_count_one _ t0 rest ?_ ?_ ?_
    · rw [hupd]
    · rw [hupd]
    · rw [hupd]
      exact hfire

/-- C2 witness: thresholds 8 s noise / 3 s quiet; a latched detector whose
quiet episode began at time 0 is reset by a false reading at time 4
(3 < 4), is not reset at time 3 exactly, and then fires a second alert on
noisy ticks at times 10 and 19. -/
theorem C2_quiet_reset_witness :
    ((SoundDisturbanceDetector.mk 8 3 none (some 0) true false).update
        (some false) 4).alert_triggered_for_event = false ∧
    ((SoundDisturbanceDetector.mk 8 3 none (some 0) true false).update
        (some false) 3).alert_triggered_for_event = true ∧
    ((ticksRun ((SoundDisturbanceDetector.mk 8 3 none (some 0) true false).update
        (some false) 4) (some true) [10, 19]).2).count true = 1 := by
  refine ⟨?_, ?_, ?_⟩
  · exact (C2_quiet_reset
      (SoundDisturbanceDetector.mk 8 3 none (some 0) true false)
      0 4 rfl rfl).1.mpr (by norm_num)
  · have h := (C2_quiet_reset
      (SoundDisturbanceDetector.mk 8 3 none (some 0) true false)
      0 3 rfl rfl).1
    cases hv : ((SoundDisturbanceDetector.mk 8 3 none (some 0) true false).update
        (some false) 3).alert_triggered_for_event with
    | false => exact absurd (h.mp hv) (by norm_num)
    | true => rfl
  · exact (C2_quiet_reset
      (SoundDisturbanceDetector.mk 8 3 none (some 0) true false)
      0 4 rfl rfl).2 10 [19] (by norm_num) ⟨19, by simp, by norm_num⟩

/-- Invariant maintained while the sound signal never reads true: no noise
episode is open, no alert is latched, and a quiet episode is open. -/
def quietInv (d : SoundDisturbanceDetector) : Prop :=
  d.noise_start_time = none ∧ d.alert_triggered_for_event = false ∧
    d.quiet_start_time.isSome = true

lemma soundRun_absent_eq_false :
    ∀ (shape : List (Bool × ℚ)) (d : SoundDisturbanceDetector), quietInv d →
      soundRun d (evsWith none shape) = soundRun d (evsWith (some false) shape) := by
  intro shape
  induction shape with
  | nil => intro d _; rfl
  | cons p rest ih =>
    obtain ⟨isUpd, t⟩ := p
    intro d hd
    obtain ⟨sus, qr, ns, qs, al, sa⟩ := d
    obtain ⟨hn, ha, hq⟩ := hd
    simp only at hn ha hq
    subst hn
    subst ha
    cases qs with
    | none => simp at hq
    | some q =>
      cases isUpd with
      | false =>
        have hrec := ih (SoundDisturbanceDetector.mk sus qr none (some q) false sa)
          ⟨rfl, rfl, rfl⟩
        simp [evsWith, soundRun, soundStep, SoundDisturbanceDetector.get_status, hrec]
      | true =>
        have hrec := ih (SoundDisturbanceDetector.mk sus qr none (some q) false false)
          ⟨rfl, rfl, rfl⟩
        have hu1 : (SoundDisturbanceDetector.mk sus qr none (some q) false sa).update
            none t = SoundDisturbanceDetector.mk sus qr none (some q) false false := rfl
        have hu2 : (SoundDisturbanceDetector.mk sus qr none (some q) false sa).update
            (some false) t = SoundDisturbanceDetector.mk sus qr none (some q) false false := by
          simp [SoundDisturbanceDetector.update]
        simp [evsWith, soundRun, soundStep, hu1, hu2, hrec]

/-- C7: with the detector started from its initial state, any sequence of
`update`/`get_status` calls produces the same outputs when the sound
sensor is permanently unavailable as when it is available and reads false
at every tick. -/
theorem C7_absent_equals_always_false (sus qr t0 : ℚ) (shape : List (Bool × ℚ)) :
    (soundRun (SoundDisturbanceDetector.init sus qr t0) (evsWith none shape)).2 =
      (soundRun (SoundDisturbanceDetector.init sus qr t0)
        (evsWith (some false) shape)).2 := by
  rw [soundRun_absent_eq_false shape (SoundDisturbanceDetector.init sus qr t0)
    ⟨rfl, rfl, rfl⟩]

lemma phaseOk_step (d : SoundDisturbanceDetector) (ev : SoundEv)
    (h : phaseOk d = true) : phaseOk (soundStep d ev).1 = true := by
  obtain ⟨sus, qr, ns, qs, al, sa⟩ := d
  cases ev with
  | upd r now =>
    match r with
    | none => simpa [soundStep, SoundDisturbanceDetector.update, phaseOk] using h
    | some true =>
      cases ns <;> simp [soundStep, SoundDisturbanceDetector.update, phaseOk]
    | some false =>
      cases qs <;> simp [soundStep, SoundDisturbanceDetector.update, phaseOk] <;>
        split <;> simp [phaseOk]
  | stat now =>
    cases ns with
    | none => simpa [soundStep, SoundDisturbanceDetector.get_status, phaseOk] using h
    | some n0 =>
      by_cases hc : sus < now - n0 ∧ al = false
      · simpa [soundStep, SoundDisturbanceDetector.get_status, hc, phaseOk] using h
      · simpa [soundStep, SoundDisturbanceDetector.get_status, hc, phaseOk] using h

lemma phaseOk_run :
    ∀ (evs : List SoundEv) (d : SoundDisturbanceDetector),
      phaseOk d = true → phaseOk (soundRun d evs).1 = true := by
  intro evs
  induction evs with
  | nil => intro d h; simpa [soundRun] using h
  | cons ev evs ih =>
    intro d h
    have h1 := phaseOk_step d ev h
    have h2 := ih (soundStep d ev).1 h1
    simpa [soundRun] using h2

/-- C8: the detector never has both the noise timer and the quiet timer
set: the invariant holds in the initial state and after any sequence of
`update` and `get_status` calls. -/
theorem C8_phase_invariant (sus qr t0 : ℚ) (evs : List SoundEv) :
    phaseOk (SoundDisturbanceDetector.init sus qr t0) = true ∧
      phaseOk (soundRun (SoundDisturbanceDetector.init sus qr t0) evs).1 = true :=
  ⟨rfl, phaseOk_run evs _ rfl⟩

/-- C3: the aggregate status follows the priority chain (present
temperature above 35 gives CRITICAL, else the inactivity alert gives
CRITICAL, else a present CO2 above 2000 gives WARNING, else NORMAL), with
first match winning and absent readings never escalating; in particular the
four example combinations of the claim evaluate as stated. -/
theorem C3_aggregate_status (temp : Option ℚ) (co2 : Option ℤ) (inact : Bool) :
    (main.systemStatus temp co2 inact = "CRITICAL" ↔
      ((∃ tc, temp = some tc ∧ 35 < tc) ∨ inact = true)) ∧
    (main.systemStatus temp co2 inact = "WARNING" ↔
      ((¬ ∃ tc, temp = some tc ∧ 35 < tc) ∧ inact = false ∧
        ∃ c, co2 = some c ∧ 2000 < c)) ∧
    (main.systemStatus temp co2 inact = "NORMAL" ↔
      ((¬ ∃ tc, temp = some tc ∧ 35 < tc) ∧ inact = false ∧
        ¬ ∃ c, co2 = some c ∧ 2000 < c)) ∧
    main.systemStatus (some 36) (some 2500) false = "CRITICAL" ∧
    main.systemStatus none (some 2500) false = "WARNING" ∧
    main.systemStatus (some 20) none true = "CRITICAL" ∧
    main.systemStatus none none false = "NORMAL" := by
  refine ⟨?_, ?_, ?_, by decide, by decide, by decide, by decide⟩ <;>
    rcases temp with _ | tc <;> rcases co2 with _ | c <;> cases inact <;>
      simp [main.systemStatus] <;>
      (try split_ifs) <;>
      (try simp_all) <;>
      (try decide) <;>
      refine iff_of_false (by decide) ?_ <;>
      intro hcon <;>
      first
        | linarith [hcon]
        | linarith [hcon.1]

/-- C9: the non-logging environmental adapter never raises and returns the
absent sentinel on every failure (missing sensor, partial read,
RuntimeError, unexpected exception); the logging variant returns the
sentinel on a transient RuntimeError but, on an unexpected exception, logs
one row, releases the sensor handle, and re-raises. -/
theorem C9_env_adapter_error_policy (avail : Bool) (attempt : DhtRead)
    (t h : Option ℚ) (msg name : String) :
    (∃ d : EnvData, get_environmental_data avail attempt = Except.ok d) ∧
    get_environmental_data false attempt = Except.ok ⟨none, none⟩ ∧
    get_environmental_data true (.value none h) = Except.ok ⟨none, none⟩ ∧
    get_environmental_data true (.value t none) = Except.ok ⟨none, none⟩ ∧
    get_environmental_data true (.runtimeErr msg) = Except.ok ⟨none, none⟩ ∧
    get_environmental_data true (.unexpectedErr name) = Except.ok ⟨none, none⟩ ∧
    tests_dht.get_environmental_data (.runtimeErr msg) =
      ⟨Except.ok ⟨none, none⟩, [⟨none, none, "runtime_error"⟩], false⟩ ∧
    (tests_dht.get_environmental_data (.unexpectedErr name)).result =
      Except.error name ∧
    (tests_dht.get_environmental_data (.unexpectedErr name)).exited = true ∧
    (tests_dht.get_environmental_data (.unexpectedErr name)).rows =
      [⟨none, none, "exception:" ++ name⟩] := by
  refine ⟨?_, ?_, ?_, ?_, ?_, ?_, rfl, rfl, rfl, rfl⟩
  · cases avail with
    | false => exact ⟨⟨none, none⟩, rfl⟩
    | true =>
      cases attempt with
      | value t' h' =>
        by_cases hs : t'.isSome && h'.isSome
        · exact ⟨⟨t', h'⟩, by simp [get_environmental_data, hs]⟩
        · exact ⟨⟨none, none⟩, by simp only [get_environmental_data] ; simp [hs]⟩
      | runtimeErr m => exact ⟨⟨none, none⟩, rfl⟩
      | unexpectedErr n => exact ⟨⟨none, none⟩, rfl⟩
  · rfl
  · cases h with
    | none => rfl
    | some hv => rfl
  · cases t with
    | none => rfl
    | some tv => rfl
  · rfl
  · rfl

/-- C10: humidity noninterference: two ticks of the dashboard computation
whose inputs differ only in the humidity reading produce the same aggregate
system status, for every formatter, temperature, CO2 and motion input. -/
theorem C10_humidity_noninterference (fmt1 : ℚ → String) (temp h1 h2 : Option ℚ)
    (co2 : Option ℤ) (motion : MotionStatus) :
    (main.update_data_view fmt1 ⟨temp, h1⟩ co2 motion).system_status =
      (main.update_data_view fmt1 ⟨temp, h2⟩ co2 motion).system_status := rfl
